import Mathlib

/-!
Verification of the CyberCrawl spider-robot controller.

This file is a shallow embedding of the repository's core in Lean 4:

* `src/sensors/ultrasonic.py` — multi-sample averaging and severity tiers;
* `src/movement/auto_walk.py` — the autonomous navigation policy
  (tiered obstacle response, stuck detection, escape maneuver, vision
  override, start/stop lifecycle);
* `src/movement/servo_control.py` — the inverse-kinematics leg solver,
  the per-leg servo mirror transform, and the gait sequencer acting on
  the `site_now` / `site_expect` pose arrays.

Modelling conventions: Python floats carrying sensor and pose data are
modelled as exact rationals; the trigonometric kinematics works over the
real numbers.  Hardware effects (servo writes, sleeps) are modelled as
explicit event lists returned next to the updated state.  The random
number generator is modelled as an explicit oracle argument recording
the outcome of each random draw an iteration can make.
-/

namespace CyberCrawl

/-! ### Configuration constants (`src/config.py`) -/

def OBSTACLE_THRESHOLD : ℚ := 20

def MAX_DISTANCE : ℚ := 200

/-- First component of `config.CAMERA_RESOLUTION = (640, 480)`. -/
def CAMERA_RESOLUTION_W : ℚ := 640

/-! ### Ultrasonic sensor (`src/sensors/ultrasonic.py`) -/

/-- Python `round(q, 2)` (round to two decimal places).  CPython rounds
ties to even; Mathlib's `round` rounds ties up.  The tie-breaking rule at
exact midpoints is immaterial to every property proved in this file. -/
def round2 (q : ℚ) : ℚ := (round (q * 100) : ℤ) / 100

/-- `UltrasonicSensor.get_average_distance(samples, delay)`.  The
`samples` individual `measure_distance()` results are supplied as the
list `readings` (the sensor is an input stream in this embedding; the
source loops `samples` times collecting one result per iteration and
`delay` only sleeps).  A reading is kept when `distance > 0`; the valid
readings are averaged, and `-1` (the sensor-error sentinel) is returned
when the sensor is disabled or no valid reading was obtained. -/
def get_average_distance (enabled : Bool) (readings : List ℚ) : ℚ :=
  if enabled = false then -1
  else
    if readings.filter (fun d => 0 < d) = [] then -1
    else round2 ((readings.filter (fun d => 0 < d)).sum /
                 (readings.filter (fun d => 0 < d)).length)

/-- `UltrasonicSensor.get_obstacle_severity(distance)`: fixed threshold
tiers, negative (error) readings map to `"unknown"`. -/
def get_obstacle_severity (distance : ℚ) : String :=
  if distance < 0 then "unknown"
  else if distance < 10 then "critical"
  else if distance < 20 then "danger"
  else if distance < 50 then "warning"
  else "safe"

/-- Numeric rank of a severity tier, used to state that the
classification is monotonic in the distance (closer means at most as
severe a rank).  This definition follows the specification's ordering
CRITICAL < DANGER < WARNING < SAFE; it has no counterpart in the
source. -/
def severityRank (s : String) : ℕ :=
  if s = "critical" then 0
  else if s = "danger" then 1
  else if s = "warning" then 2
  else if s = "safe" then 3
  else 4

/-! ### Navigation policy data (`src/movement/auto_walk.py`) -/

/-- A turn direction, Python string `'left'` / `'right'`. -/
inductive Dir
  | left
  | right
deriving DecidableEq

/-- A command issued by the navigation policy to the gait sequencer
(`self.servo.<command>` calls in `auto_walk.py`). -/
inductive GaitCmd
  | stand
  | sit
  | stepForward (steps : ℕ)
  | stepBack (steps : ℕ)
  | turnLeft (steps : ℕ)
  | turnRight (steps : ℕ)
deriving DecidableEq

/-- Direction `d` turned for `n` steps: `turn_left(n)` or `turn_right(n)`. -/
def turnCmd (d : Dir) (n : ℕ) : GaitCmd :=
  match d with
  | Dir.left => GaitCmd.turnLeft n
  | Dir.right => GaitCmd.turnRight n

/-- Oracle recording the outcome of each random draw one navigation-loop
iteration can make.  `crit_fires` is the event `random.random() < 0.3`
in `_handle_critical_obstacle` and `crit_dir` the `random.choice` made
when it fires; `warn_fires` / `warn_dir` are the 40%-randomisation
analogues in `_handle_warning_obstacle`; `escape_choice` is the
`random.choice` inside `_choose_escape_direction`; `esc_dir` the
`random.choice(['left','right'])` in `_escape_maneuver`; and
`random.randint(3, 5)` there is modelled as `3 + esc_extra` with
`esc_extra < 3`. -/
structure Rand where
  crit_fires : Bool
  crit_dir : Dir
  warn_fires : Bool
  warn_dir : Dir
  escape_choice : Dir
  esc_dir : Dir
  esc_extra : Fin 3
deriving DecidableEq

/-- One camera detection, as consumed by `_check_critical_objects`
(fields `class`, `confidence`, `center_x` of the detection dict). -/
structure Detection where
  cls : String
  confidence : ℚ
  center_x : ℚ
deriving DecidableEq

/-- The fixed critical-class allowlist of `_check_critical_objects`. -/
def critical_classes : List String :=
  ["person", "dog", "cat", "chair", "couch", "car"]

/-- Frame center `config.CAMERA_RESOLUTION[0] / 2`. -/
def frame_center : ℚ := CAMERA_RESOLUTION_W / 2

/-- `AutonomousController._check_critical_objects()`: `false` when no
camera is attached, otherwise `true` exactly when some detection has a
class in the allowlist, confidence strictly above `0.7`, and a bounding
box center within `frame_center * 0.6` of the frame center.  (Python
compares against the float literals `0.7` and `0.6`; they are modelled
as the rationals `7/10` and `3/5`, which agrees with the float
comparison on every value relevant here.) -/
def check_critical_objects (cam : Bool) (dets : List Detection) : Bool :=
  if cam = false then false
  else
    dets.any (fun det =>
      decide (det.cls ∈ critical_classes) &&
      decide ((7 / 10 : ℚ) < det.confidence) &&
      decide (|det.center_x - frame_center| < frame_center * (3 / 5)))

/-- `AutonomousController._choose_escape_direction(last_direction)`:
opposite of the last direction, or a random choice when there was
none. -/
def choose_escape_direction (last_direction : Option Dir) (r : Rand) : Dir :=
  match last_direction with
  | some Dir.left => Dir.right
  | some Dir.right => Dir.left
  | none => r.escape_choice

/-- `AutonomousController._handle_critical_obstacle(consecutive_count,
last_direction)`: with hardware attached, back up two paces and turn two
steps; the direction is the escape heuristic once `consecutive_count >= 3`,
otherwise the alternation default (right iff the last direction was left)
overridden by a random choice with probability 0.3.  Returns the chosen
direction next to the issued commands (the source `return direction`). -/
def handle_critical_obstacle (pca : Bool) (consecutive_count : ℕ)
    (last_direction : Option Dir) (r : Rand) : Option Dir × List GaitCmd :=
  if pca = false then (none, [])
  else
    let direction :=
      if 3 ≤ consecutive_count then
        choose_escape_direction last_direction r
      else
        let d0 := if last_direction = some Dir.left then Dir.right else Dir.left
        if r.crit_fires then r.crit_dir else d0
    (some direction, [GaitCmd.stepBack 2, turnCmd direction 2])

/-- `AutonomousController._handle_warning_obstacle(last_direction)`:
one-step correction turn, alternation default with 40% randomisation. -/
def handle_warning_obstacle (pca : Bool) (last_direction : Option Dir)
    (r : Rand) : Option Dir × List GaitCmd :=
  if pca = false then (none, [])
  else
    let d0 := if last_direction = some Dir.left then Dir.right else Dir.left
    let direction := if r.warn_fires then r.warn_dir else d0
    (some direction, [turnCmd direction 1])

/-- `AutonomousController._escape_maneuver()`: back up three paces, turn
`random.randint(3, 5)` steps in a random direction, then one exploratory
forward step. -/
def escape_maneuver (pca : Bool) (r : Rand) : List GaitCmd :=
  if pca = false then []
  else
    [GaitCmd.stepBack 3,
     turnCmd r.esc_dir (3 + r.esc_extra.val),
     GaitCmd.stepForward 1]

/-- `self.critical_distance = config.OBSTACLE_THRESHOLD`. -/
def critical_distance : ℚ := OBSTACLE_THRESHOLD

/-- `self.safe_distance = config.OBSTACLE_THRESHOLD + 10`. -/
def safe_distance : ℚ := OBSTACLE_THRESHOLD + 10

/-- `self.stuck_threshold = 5`. -/
def stuck_threshold : ℕ := 5

/-- The mutable data of one `_navigation_loop` run: the two loop locals
`consecutive_obstacles` and `last_turn_direction`, and the controller
counters `self.obstacle_count` and `self.step_count`. -/
structure LoopState where
  consecutive_obstacles : ℕ
  last_turn_direction : Option Dir
  obstacle_count : ℕ
  step_count : ℕ
deriving DecidableEq

/-- Loop state at the start of a `_navigation_loop` run on a freshly
constructed controller. -/
def initLoop : LoopState := ⟨0, none, 0, 0⟩

/-- The tiered decision of one `_navigation_loop` iteration (lines
100–125 of `auto_walk.py`), before the stuck check.  `distance` is the
`get_average_distance` result of this iteration and `dets` the camera
detections.  Note that the source discards the direction returned by
the critical and warning handlers (`self._handle_critical_obstacle(...)`
is a bare expression statement), so `last_turn_direction` is unchanged
in those branches; only the clear branch writes it (to `None`). -/
def navTier (pca cam : Bool) (s : LoopState) (distance : ℚ)
    (dets : List Detection) (r : Rand) : LoopState × List GaitCmd :=
  if distance < 0 then
    ({ s with consecutive_obstacles := 0 }, [])
  else if distance < critical_distance ∨ check_critical_objects cam dets = true then
    ({ s with
        consecutive_obstacles := s.consecutive_obstacles + 1,
        obstacle_count := s.obstacle_count + 1 },
     (handle_critical_obstacle pca s.consecutive_obstacles
        s.last_turn_direction r).2)
  else if distance < safe_distance then
    ({ s with consecutive_obstacles := s.consecutive_obstacles + 1 },
     (handle_warning_obstacle pca s.last_turn_direction r).2)
  else
    ({ s with
        consecutive_obstacles := 0,
        last_turn_direction := none,
        step_count := if pca then s.step_count + 1 else s.step_count },
     if pca then [GaitCmd.stepForward 1] else [])

/-- One full `_navigation_loop` iteration: the tiered decision followed
by the stuck check (lines 128–131): when the consecutive-obstacle count
has reached `stuck_threshold`, the escape maneuver runs and the count is
reset to 0. -/
def navStep (pca cam : Bool) (s : LoopState) (distance : ℚ)
    (dets : List Detection) (r : Rand) : LoopState × List GaitCmd :=
  if stuck_threshold ≤ (navTier pca cam s distance dets r).1.consecutive_obstacles then
    ({ (navTier pca cam s distance dets r).1 with consecutive_obstacles := 0 },
     (navTier pca cam s distance dets r).2 ++ escape_maneuver pca r)
  else navTier pca cam s distance dets r

/-- Whether the stuck check of an iteration fires (the escape maneuver
runs) for the given pre-iteration state and inputs. -/
def escapeFires (pca cam : Bool) (s : LoopState) (distance : ℚ)
    (dets : List Detection) (r : Rand) : Bool :=
  decide (stuck_threshold ≤
    (navTier pca cam s distance dets r).1.consecutive_obstacles)

/-- A fully deterministic oracle: no randomisation event fires, and
every random choice (were one made) would yield `left`. -/
def noRandom : Rand :=
  { crit_fires := false,
    crit_dir := Dir.left,
    warn_fires := false,
    warn_dir := Dir.left,
    escape_choice := Dir.left,
    esc_dir := Dir.left,
    esc_extra := 0 }

/-! ### Controller lifecycle (`AutonomousController.start` / `stop`) -/

/-- The controller-level state touched by `start()` and `stop()`. -/
structure CtrlState where
  is_running : Bool
  current_state : String
deriving DecidableEq

/-- The controller state while exploring (after a successful `start()`). -/
def ctrlExploring : CtrlState := { is_running := true, current_state := "EXPLORING" }

/-- `AutonomousController.stop()`: unconditionally clears the running
flag, sets the state to `"IDLE"`, and (when servo hardware is attached)
commands `sit()`.  The source has no already-stopped guard. -/
def stop (pca : Bool) (s : CtrlState) : CtrlState × List GaitCmd :=
  ({ s with is_running := false, current_state := "IDLE" },
   if pca then [GaitCmd.sit] else [])

/-- `AutonomousController.start()`: a no-op when already running,
otherwise sets the running flag and the `"EXPLORING"` state and (with
hardware) commands `stand()` before spawning the navigation loop. -/
def start (pca : Bool) (s : CtrlState) : CtrlState × List GaitCmd :=
  if s.is_running then (s, [])
  else
    ({ s with is_running := true, current_state := "EXPLORING" },
     if pca then [GaitCmd.stand] else [])

/-! ### Leg kinematics (`src/movement/servo_control.py`) -/

/-- Robot dimension `config.LENGTH_A` (upper-leg length, mm). -/
noncomputable def LENGTH_A : ℝ := 55

/-- Robot dimension `config.LENGTH_B` (lower-leg length, mm). -/
noncomputable def LENGTH_B : ℝ := 77.5

/-- Robot dimension `config.LENGTH_C` (coxa length, mm). -/
noncomputable def LENGTH_C : ℝ := 27.5

/-- Python `math.atan2(y, x)`: the argument of the complex number
`x + y*i`, lying in `(-pi, pi]`, with `atan2 0 0 = 0` exactly as in
Python. -/
noncomputable def atan2 (y x : ℝ) : ℝ := Complex.arg ⟨x, y⟩

/-- Python `math.degrees` (radians to degrees). -/
noncomputable def degrees (r : ℝ) : ℝ := r * 180 / Real.pi

/-- Local `w = (1 if x >= 0 else -1) * math.sqrt(x**2 + y**2)` of
`cartesian_to_polar`. -/
noncomputable def wOf (x y : ℝ) : ℝ :=
  (if 0 ≤ x then (1 : ℝ) else -1) * Real.sqrt (x ^ 2 + y ^ 2)

/-- Local `v = w - self.length_c` of `cartesian_to_polar`. -/
noncomputable def vOf (x y : ℝ) : ℝ := wOf x y - LENGTH_C

/-- The clamped `acos_term` of the alpha computation:
`max(-1, min(1, (a**2 - b**2 + v**2 + z**2) / (2*a*sqrt(v**2+z**2))))`. -/
noncomputable def acos_term_alpha (v z : ℝ) : ℝ :=
  max (-1) (min 1 ((LENGTH_A ^ 2 - LENGTH_B ^ 2 + v ^ 2 + z ^ 2) /
    (2 * LENGTH_A * Real.sqrt (v ^ 2 + z ^ 2))))

/-- `alpha = math.atan2(z, v) + math.acos(acos_term)` (radians). -/
noncomputable def alphaOf (v z : ℝ) : ℝ :=
  atan2 z v + Real.arccos (acos_term_alpha v z)

/-- The clamped `beta_term`:
`max(-1, min(1, (a**2 + b**2 - v**2 - z**2) / (2*a*b)))`. -/
noncomputable def beta_term (v z : ℝ) : ℝ :=
  max (-1) (min 1 ((LENGTH_A ^ 2 + LENGTH_B ^ 2 - v ^ 2 - z ^ 2) /
    (2 * LENGTH_A * LENGTH_B)))

/-- `gamma = math.atan2(y, x) if w >= 0 else math.atan2(-y, -x)`
(radians). -/
noncomputable def gammaOf (x y : ℝ) : ℝ :=
  if 0 ≤ wOf x y then atan2 y x else atan2 (-y) (-x)

/-- `SpiderServoController.cartesian_to_polar(x, y, z)`: the inverse
kinematics solver, returning `(alpha, beta, gamma)` in degrees.  When
`v = z = 0` Python divides by `sqrt(v**2 + z**2) = 0.0`, raising
`ZeroDivisionError`, which the solver's `except` clause turns into the
fallback `(90, 90, 90)`; that path is the first branch here.  Every
other input goes through the clamped trigonometric computation.  (The
solver's `except` also covers float overflow, which has no counterpart
over the reals.) -/
noncomputable def cartesian_to_polar (x y z : ℝ) : ℝ × ℝ × ℝ :=
  if (vOf x y) ^ 2 + z ^ 2 = 0 then (90, 90, 90)
  else
    (degrees (alphaOf (vOf x y) z),
     degrees (Real.arccos (beta_term (vOf x y) z)),
     degrees (gammaOf x y))

/-- The per-leg mirror transform that `SpiderServoController.polar_to_servo`
applies to `(alpha, beta, gamma)` before issuing the three servo angles:
legs 0 (front-right) and 3 (rear-right) use `alpha = 90 - alpha,
gamma += 90`; legs 1 (front-left) and 2 (rear-left) use `alpha += 90,
beta = 180 - beta, gamma = 90 - gamma`. -/
noncomputable def polar_to_servo_map (leg : Fin 4) (p : ℝ × ℝ × ℝ) : ℝ × ℝ × ℝ :=
  if leg = 0 then (90 - p.1, p.2.1, p.2.2 + 90)
  else if leg = 1 then (p.1 + 90, 180 - p.2.1, 90 - p.2.2)
  else if leg = 2 then (p.1 + 90, 180 - p.2.1, 90 - p.2.2)
  else (90 - p.1, p.2.1, p.2.2 + 90)

/-- The inverse of the per-leg mirror transform.  This definition is
written from the specification's round-trip law (it has no source
counterpart): it undoes `polar_to_servo_map` on each body side. -/
noncomputable def servo_map_inv (leg : Fin 4) (p : ℝ × ℝ × ℝ) : ℝ × ℝ × ℝ :=
  if leg = 0 ∨ leg = 3 then (90 - p.1, p.2.1, p.2.2 - 90)
  else (p.1 - 90, 180 - p.2.1, 90 - p.2.2)

/-! ### Gait sequencer (`src/movement/servo_control.py`) -/

def Z_DEFAULT : ℚ := -50

def Z_UP : ℚ := -30

def Z_BOOT : ℚ := -28

def X_DEFAULT : ℚ := 62

def X_OFFSET : ℚ := 0

def Y_START : ℚ := 0

def Y_STEP : ℚ := 40

def LEG_MOVE_SPEED : ℚ := 8

def BODY_MOVE_SPEED : ℚ := 3

def SPOT_TURN_SPEED : ℚ := 4

def STAND_SEAT_SPEED : ℚ := 1

/-- `config.SERVO_CHANNELS`: PCA9685 channel of each (leg, joint). -/
def SERVO_CHANNELS : List (List ℕ) :=
  [[0, 1, 2], [4, 5, 6], [8, 9, 10], [12, 13, 14]]

/-- `self.servo_channels[leg][joint]`. -/
def servo_channel (leg joint : ℕ) : ℕ :=
  (SERVO_CHANNELS.getD leg []).getD joint 0

/-- A hardware-facing effect of the gait sequencer: a blocking sleep
(in seconds) or a pulse write to one PCA9685 channel. -/
inductive SEvent
  | sleep (t : ℚ)
  | servoPulse (channel : ℕ) (pulse : ℤ)
deriving DecidableEq

/-- `SpiderServoController` state: hardware presence (`self.pca` being
non-None), the current and expected leg positions (`site_now`,
`site_expect`, per leg as an (x, y, z) triple in mm), and the movement
speed. -/
structure SpiderState where
  pca : Bool
  site_now : Fin 4 → ℚ × ℚ × ℚ
  site_expect : Fin 4 → ℚ × ℚ × ℚ
  move_speed : ℚ

/-- `set_servo_pulse(channel, pulse)`: clamp the pulse to
`config.SERVO_PULSE_RANGE = [150, 600]` and write the duty cycle
(a no-op without hardware). -/
def set_servo_pulse (pca : Bool) (channel : ℕ) (pulse : ℤ) : List SEvent :=
  if pca = false then []
  else [SEvent.servoPulse channel (max 150 (min 600 pulse))]

/-- `set_servo_angle(leg, joint, angle)`: constrain the angle to
[0, 180], convert to a pulse width (`int(...)` truncation coincides
with the floor on this non-negative range), and write it. -/
noncomputable def set_servo_angle (pca : Bool) (leg joint : ℕ)
    (angle : ℝ) : List SEvent :=
  if pca = false then []
  else
    set_servo_pulse pca (servo_channel leg joint)
      ⌊(max 0 (min 180 angle) / 180) * (600 - 150) + 150⌋

/-- `polar_to_servo(leg, alpha, beta, gamma)`: apply the per-leg mirror
transform and issue the three resulting servo angles. -/
noncomputable def polar_to_servo (pca : Bool) (leg : Fin 4)
    (p : ℝ × ℝ × ℝ) : List SEvent :=
  set_servo_angle pca leg.val 0 (polar_to_servo_map leg p).1 ++
  set_servo_angle pca leg.val 1 (polar_to_servo_map leg p).2.1 ++
  set_servo_angle pca leg.val 2 (polar_to_servo_map leg p).2.2

/-- An action of the gait sequencer: a state transformer together with
the list of hardware events it emits. -/
def Act : Type := SpiderState → SpiderState × List SEvent

/-- Sequential composition of two actions. -/
def aseq (f g : Act) : Act := fun s =>
  ((g (f s).1).1, (f s).2 ++ (g (f s).1).2)

/-- Sequential composition of a list of actions. -/
def aseqs : List Act → Act
  | [] => fun s => (s, [])
  | f :: fs => aseq f (aseqs fs)

/-- An action that only emits events. -/
def emit (es : List SEvent) : Act := fun s => (s, es)

/-- `self.move_speed = v`. -/
def setSpeed (v : ℚ) : Act := fun s => ({ s with move_speed := v }, [])

/-- `wait_all_reach(delay)`: one blocking sleep. -/
def wait_all_reach (t : ℚ) : List SEvent := [SEvent.sleep t]

/-- `set_site(leg, x, y, z)`: record the expected position, run the IK
solver, issue the mirrored servo angles, then record the current
position.  The source updates `site_expect` and `site_now` to the same
target unconditionally — only the servo writes are gated on `self.pca`
(inside `set_servo_angle`). -/
noncomputable def set_site (s : SpiderState) (leg : Fin 4) (x y z : ℚ) :
    SpiderState × List SEvent :=
  ({ s with
      site_expect := Function.update s.site_expect leg (x, y, z),
      site_now := Function.update s.site_now leg (x, y, z) },
   polar_to_servo s.pca leg (cartesian_to_polar (x : ℝ) (y : ℝ) (z : ℝ)))

/-- `set_site` as an action. -/
noncomputable def actSetSite (leg : Fin 4) (x y z : ℚ) : Act :=
  fun s => set_site s leg x y z

/-- `stand()`: early return without hardware, else set the stand-seat
speed, command all four legs to the default standing height and wait
0.5 s. -/
noncomputable def stand : Act := fun s =>
  if s.pca = false then (s, [])
  else
    aseqs [setSpeed STAND_SEAT_SPEED,
      actSetSite 0 (X_DEFAULT - X_OFFSET) (Y_START + Y_STEP) Z_DEFAULT,
      actSetSite 1 (X_DEFAULT - X_OFFSET) (Y_START + Y_STEP) Z_DEFAULT,
      actSetSite 2 (X_DEFAULT + X_OFFSET) Y_START Z_DEFAULT,
      actSetSite 3 (X_DEFAULT + X_OFFSET) Y_START Z_DEFAULT,
      emit (wait_all_reach (1 / 2))] s

/-- `sit()`: as `stand()` but to the boot height `Z_BOOT`. -/
noncomputable def sit : Act := fun s =>
  if s.pca = false then (s, [])
  else
    aseqs [setSpeed STAND_SEAT_SPEED,
      actSetSite 0 (X_DEFAULT - X_OFFSET) (Y_START + Y_STEP) Z_BOOT,
      actSetSite 1 (X_DEFAULT - X_OFFSET) (Y_START + Y_STEP) Z_BOOT,
      actSetSite 2 (X_DEFAULT + X_OFFSET) Y_START Z_BOOT,
      actSetSite 3 (X_DEFAULT + X_OFFSET) Y_START Z_BOOT,
      emit (wait_all_reach (1 / 2))] s

/-- `_step_forward_pair_1()`: swing legs 2 and 1 with a body shift in
between (each phase is a `set_site` or a settle wait, in source
order). -/
noncomputable def step_forward_pair_1 : Act :=
  aseqs [
    actSetSite 2 (X_DEFAULT + X_OFFSET) Y_START Z_UP,
    emit (wait_all_reach (3 / 20)),
    actSetSite 2 (X_DEFAULT + X_OFFSET) (Y_START + 2 * Y_STEP) Z_UP,
    emit (wait_all_reach (3 / 20)),
    actSetSite 2 (X_DEFAULT + X_OFFSET) (Y_START + 2 * Y_STEP) Z_DEFAULT,
    emit (wait_all_reach (3 / 20)),
    setSpeed BODY_MOVE_SPEED,
    actSetSite 0 (X_DEFAULT + X_OFFSET) Y_START Z_DEFAULT,
    actSetSite 1 (X_DEFAULT + X_OFFSET) (Y_START + 2 * Y_STEP) Z_DEFAULT,
    actSetSite 2 (X_DEFAULT - X_OFFSET) (Y_START + Y_STEP) Z_DEFAULT,
    actSetSite 3 (X_DEFAULT - X_OFFSET) (Y_START + Y_STEP) Z_DEFAULT,
    emit (wait_all_reach (1 / 5)),
    setSpeed LEG_MOVE_SPEED,
    actSetSite 1 (X_DEFAULT + X_OFFSET) (Y_START + 2 * Y_STEP) Z_UP,
    emit (wait_all_reach (3 / 20)),
    actSetSite 1 (X_DEFAULT + X_OFFSET) Y_START Z_UP,
    emit (wait_all_reach (3 / 20)),
    actSetSite 1 (X_DEFAULT + X_OFFSET) Y_START Z_DEFAULT,
    emit (wait_all_reach (3 / 20))]

/-- `_step_forward_pair_2()`: swing legs 0 and 3, mirror phases of
pair 1. -/
noncomputable def step_forward_pair_2 : Act :=
  aseqs [
    actSetSite 0 (X_DEFAULT + X_OFFSET) Y_START Z_UP,
    emit (wait_all_reach (3 / 20)),
    actSetSite 0 (X_DEFAULT + X_OFFSET) (Y_START + 2 * Y_STEP) Z_UP,
    emit (wait_all_reach (3 / 20)),
    actSetSite 0 (X_DEFAULT + X_OFFSET) (Y_START + 2 * Y_STEP) Z_DEFAULT,
    emit (wait_all_reach (3 / 20)),
    setSpeed BODY_MOVE_SPEED,
    actSetSite 0 (X_DEFAULT - X_OFFSET) (Y_START + Y_STEP) Z_DEFAULT,
    actSetSite 1 (X_DEFAULT - X_OFFSET) (Y_START + Y_STEP) Z_DEFAULT,
    actSetSite 2 (X_DEFAULT + X_OFFSET) Y_START Z_DEFAULT,
    actSetSite 3 (X_DEFAULT + X_OFFSET) (Y_START + 2 * Y_STEP) Z_DEFAULT,
    emit (wait_all_reach (1 / 5)),
    setSpeed LEG_MOVE_SPEED,
    actSetSite 3 (X_DEFAULT + X_OFFSET) (Y_START + 2 * Y_STEP) Z_UP,
    emit (wait_all_reach (3 / 20)),
    actSetSite 3 (X_DEFAULT + X_OFFSET) Y_START Z_UP,
    emit (wait_all_reach (3 / 20)),
    actSetSite 3 (X_DEFAULT + X_OFFSET) Y_START Z_DEFAULT,
    emit (wait_all_reach (3 / 20))]

/-- The per-step body of `step_forward`: swing whichever diagonal pair
did not advance last, decided by whether leg 2's y-coordinate equals
`Y_START`. -/
noncomputable def step_forward_loop : ℕ → Act
  | 0 => fun s => (s, [])
  | n + 1 =>
    aseq (fun s =>
        if (s.site_now 2).2.1 = Y_START then step_forward_pair_1 s
        else step_forward_pair_2 s)
      (step_forward_loop n)

/-- `step_forward(steps)`: early return without hardware, else set the
leg speed and run `steps` alternating-pair walking cycles. -/
noncomputable def step_forward (steps : ℕ) : Act := fun s =>
  if s.pca = false then (s, [])
  else aseq (setSpeed LEG_MOVE_SPEED) (step_forward_loop steps) s

/-- `step_back(steps)`: with hardware, one 0.3 s sleep per step and
nothing else (the source's backward gait is a stub: no `set_site`, no
servo write, no speed change). -/
def step_back (steps : ℕ) : Act := fun s =>
  if s.pca = false then (s, [])
  else (s, List.replicate steps (SEvent.sleep (3 / 10)))

/-- `turn_left(steps)`: with hardware, set the spot-turn speed then one
0.4 s sleep per step, and nothing else (no `set_site`, no servo
write). -/
def turn_left (steps : ℕ) : Act := fun s =>
  if s.pca = false then (s, [])
  else ({ s with move_speed := SPOT_TURN_SPEED },
        List.replicate steps (SEvent.sleep (2 / 5)))

/-- `turn_right(steps)`: identical shape to `turn_left`. -/
def turn_right (steps : ℕ) : Act := fun s =>
  if s.pca = false then (s, [])
  else ({ s with move_speed := SPOT_TURN_SPEED },
        List.replicate steps (SEvent.sleep (2 / 5)))

/-- The controller state right after `_initialize_positions()`: front
legs (0, 1) at the forward boot stance, rear legs (2, 3) at the rear
boot stance, each with `site_expect` a copy of `site_now`; hardware
attached, speed at the constructor's `leg_move_speed`. -/
def init_state : SpiderState :=
  { pca := true,
    site_now := fun leg =>
      if leg.val < 2 then (X_DEFAULT - X_OFFSET, Y_START + Y_STEP, Z_BOOT)
      else (X_DEFAULT + X_OFFSET, Y_START, Z_BOOT),
    site_expect := fun leg =>
      if leg.val < 2 then (X_DEFAULT - X_OFFSET, Y_START + Y_STEP, Z_BOOT)
      else (X_DEFAULT + X_OFFSET, Y_START, Z_BOOT),
    move_speed := LEG_MOVE_SPEED }

/-- The implicit pose invariant: every leg's assumed-reached position
equals its last commanded target. -/
def siteInv (s : SpiderState) : Prop :=
  ∀ leg : Fin 4, s.site_now leg = s.site_expect leg

instance (s : SpiderState) : Decidable (siteInv s) :=
  inferInstanceAs (Decidable (∀ leg : Fin 4, s.site_now leg = s.site_expect leg))

/-- An action preserves the pose invariant. -/
def preserves (f : Act) : Prop := ∀ s, siteInv s → siteInv (f s).1

/-- Whether an event is a pure sleep (not a servo write). -/
def isSleep : SEvent → Bool
  | SEvent.sleep _ => true
  | SEvent.servoPulse _ _ => false

end CyberCrawl

namespace CyberCrawl

/-! ### Theorems: ultrasonic sensor -/

theorem round2_nonneg {q : ℚ} (h : 0 ≤ q) : 0 ≤ round2 q := by
  unfold round2
  have h1 : (0 : ℤ) ≤ round (q * 100) := by
    rw [round_eq]
    refine Int.le_floor.mpr ?_
    push_cast
    linarith
  have h2 : (0 : ℚ) ≤ (round (q * 100) : ℤ) := by exact_mod_cast h1
  positivity

theorem get_average_distance_eq (readings : List ℚ)
    (hne : readings.filter (fun d => 0 < d) ≠ []) :
    get_average_distance true readings =
      round2 ((readings.filter (fun d => 0 < d)).sum /
              (readings.filter (fun d => 0 < d)).length) := by
  unfold get_average_distance
  simp [hne]

/-- Claim C7: `get_average_distance` averages only the valid
(positive, non-sentinel) readings and returns the `-1` sensor-error
sentinel exactly when no valid reading was obtained; in particular,
for two sensor errors and one valid reading of 42 it returns 42. -/
theorem average_valid_only :
    (∀ readings : List ℚ,
      (get_average_distance true readings = -1 ↔
        readings.filter (fun d => 0 < d) = []))
  ∧ (∀ readings : List ℚ, readings.filter (fun d => 0 < d) ≠ [] →
      get_average_distance true readings =
        round2 ((readings.filter (fun d => 0 < d)).sum /
                (readings.filter (fun d => 0 < d)).length))
  ∧ get_average_distance true [-1, -1, 42] = 42 := by
  refine ⟨?_, fun readings hne => get_average_distance_eq readings hne, ?_⟩
  · intro readings
    constructor
    · intro h
      by_contra hne
      have hpos : 0 < (readings.filter (fun d => 0 < d)).sum := by
        refine List.sum_pos _ ?_ hne
        intro a ha
        exact of_decide_eq_true (List.mem_filter.mp ha).2
      have hlen : 0 < ((readings.filter (fun d => 0 < d)).length : ℚ) := by
        exact_mod_cast List.length_pos.mpr hne
      have hmean : 0 < (readings.filter (fun d => 0 < d)).sum /
          (readings.filter (fun d => 0 < d)).length := div_pos hpos hlen
      have := round2_nonneg hmean.le
      rw [get_average_distance_eq readings hne] at h
      linarith [h ▸ this]
    · intro h
      simp [get_average_distance, h]
  · have hf : ([(-1 : ℚ), -1, 42].filter (fun d => 0 < d)) = [42] := by norm_num
    have hne : ([(-1 : ℚ), -1, 42].filter (fun d => 0 < d)) ≠ [] := by
      rw [hf]; simp
    rw [get_average_distance_eq _ hne, hf]
    norm_num [round2, round_eq]

/-- Witness for C7: concrete applications of `average_valid_only`; a
list with no valid reading yields the sentinel. -/
theorem average_valid_only_witness :
    ([(-1 : ℚ), -1, -1].filter (fun d => 0 < d) = []) ∧
    get_average_distance true [-1, -1, -1] = -1 :=
  ⟨by decide, (average_valid_only.1 [-1, -1, -1]).mpr (by decide)⟩

/-- Claim C8: `get_obstacle_severity` maps the sensor-error sentinel to
`"unknown"` and partitions the non-negative distances into four
contiguous tiers with boundaries at 10, 20 and 50 cm; the tier rank is
monotonic in the distance. -/
theorem severity_partition_monotone :
    get_obstacle_severity (-1) = "unknown"
  ∧ (∀ d : ℚ, 0 ≤ d → (get_obstacle_severity d = "critical" ↔ d < 10))
  ∧ (∀ d : ℚ, 0 ≤ d → (get_obstacle_severity d = "danger" ↔ 10 ≤ d ∧ d < 20))
  ∧ (∀ d : ℚ, 0 ≤ d → (get_obstacle_severity d = "warning" ↔ 20 ≤ d ∧ d < 50))
  ∧ (∀ d : ℚ, 0 ≤ d → (get_obstacle_severity d = "safe" ↔ 50 ≤ d))
  ∧ (∀ d1 d2 : ℚ, 0 ≤ d1 → d1 ≤ d2 →
      severityRank (get_obstacle_severity d1) ≤
        severityRank (get_obstacle_severity d2)) := by
  refine ⟨by norm_num [get_obstacle_severity], ?_, ?_, ?_, ?_, ?_⟩
  · intro d hd
    unfold get_obstacle_severity
    split_ifs <;> simp_all <;> (try constructor) <;> intros <;> linarith
  · intro d hd
    unfold get_obstacle_severity
    split_ifs <;> simp_all <;> (try constructor) <;> intros <;> linarith
  · intro d hd
    unfold get_obstacle_severity
    split_ifs <;> simp_all <;> (try constructor) <;> intros <;> linarith
  · intro d hd
    unfold get_obstacle_severity
    split_ifs <;> simp_all <;> (try constructor) <;> intros <;> linarith
  · intro d1 d2 h0 h12
    unfold get_obstacle_severity
    split_ifs <;> simp_all [severityRank] <;> intros <;> linarith

/-- Witness for C8: concrete applications of
`severity_partition_monotone`. -/
theorem severity_partition_monotone_witness :
    ((0 : ℚ) ≤ 5 ∧ get_obstacle_severity 5 = "critical") ∧
    ((0 : ℚ) ≤ 15 ∧ (15 : ℚ) ≤ 55 ∧
      severityRank (get_obstacle_severity 15) ≤
        severityRank (get_obstacle_severity 55)) :=
  ⟨⟨by norm_num,
    (severity_partition_monotone.2.1 5 (by norm_num)).mpr (by norm_num)⟩,
   by norm_num,
   by norm_num,
   severity_partition_monotone.2.2.2.2.2 15 55 (by norm_num) (by norm_num)⟩

/-! ### Theorems: controller lifecycle -/

/-- Claim C4 counterexample: a second `stop()` while already IDLE is not
a no-op — it issues one more `sit()` command (the source `stop` has no
already-stopped guard). -/
theorem stop_again_issues_sit :
    (stop true (stop true ctrlExploring).1).1.current_state = "IDLE" ∧
    (stop true (stop true ctrlExploring).1).2 = [GaitCmd.sit] := by
  constructor <;> rfl

/-- Claim C4 (amended): `stop()` from any controller state — EXPLORING
included — clears the running flag, sets the state to IDLE and issues
exactly one `sit()`; calling `stop()` again while already IDLE leaves
the state unchanged but issues one additional `sit()` each time. -/
theorem stop_transition :
    ∀ s : CtrlState,
      (stop true s).1.is_running = false ∧
      (stop true s).1.current_state = "IDLE" ∧
      (stop true s).2 = [GaitCmd.sit] ∧
      (stop true (stop true s).1).1 = (stop true s).1 ∧
      (stop true (stop true s).1).2 = [GaitCmd.sit] := by
  intro s
  exact ⟨rfl, rfl, rfl, rfl, rfl⟩

/-! ### Theorems: navigation loop -/

/-- Claim C1 (failing run): from a fresh loop state, two consecutive
critical-tier iterations in which the 30% randomisation does not fire
both turn LEFT.  `_navigation_loop` discards the direction returned by
`_handle_critical_obstacle` (a bare expression statement), so
`last_turn_direction` is never updated after a turn and the documented
alternation never takes effect. -/
theorem critical_turn_does_not_alternate :
    (navStep true true initLoop 8 [] noRandom).2 =
      [GaitCmd.stepBack 2, GaitCmd.turnLeft 2] ∧
    (navStep true true (navStep true true initLoop 8 [] noRandom).1
        8 [] noRandom).2 =
      [GaitCmd.stepBack 2, GaitCmd.turnLeft 2] ∧
    (navStep true true (navStep true true initLoop 8 [] noRandom).1
        8 [] noRandom).1.last_turn_direction = none := by
  refine ⟨?_, ?_, ?_⟩ <;> decide

/-- Claim C2: an iteration whose consecutive-obstacle count reaches the
stuck threshold 5 appends exactly one escape maneuver (back up 3 paces,
one 3-to-5-step random turn, one exploratory forward step) and resets
the counter to 0; an iteration below the threshold appends nothing; and
for five consecutive CRITICAL readings of 8 cm the escape fires exactly
at the 5th reading, whatever the random draws. -/
theorem escape_fires_once :
    (∀ (pca cam : Bool) (s : LoopState) (d : ℚ) (dets : List Detection) (r : Rand),
        escapeFires pca cam s d dets r = true →
        (navStep pca cam s d dets r).1.consecutive_obstacles = 0 ∧
        (navStep pca cam s d dets r).2 =
          (navTier pca cam s d dets r).2 ++ escape_maneuver pca r)
  ∧ (∀ (pca cam : Bool) (s : LoopState) (d : ℚ) (dets : List Detection) (r : Rand),
        escapeFires pca cam s d dets r = false →
        navStep pca cam s d dets r = navTier pca cam s d dets r)
  ∧ (∀ r : Rand, 3 ≤ 3 + r.esc_extra.val ∧ 3 + r.esc_extra.val ≤ 5 ∧
        escape_maneuver true r =
          [GaitCmd.stepBack 3, turnCmd r.esc_dir (3 + r.esc_extra.val),
           GaitCmd.stepForward 1])
  ∧ (∀ r1 r2 r3 r4 r5 : Rand,
        escapeFires true true initLoop 8 [] r1 = false ∧
        (navStep true true initLoop 8 [] r1).1 = ⟨1, none, 1, 0⟩ ∧
        escapeFires true true ⟨1, none, 1, 0⟩ 8 [] r2 = false ∧
        (navStep true true ⟨1, none, 1, 0⟩ 8 [] r2).1 = ⟨2, none, 2, 0⟩ ∧
        escapeFires true true ⟨2, none, 2, 0⟩ 8 [] r3 = false ∧
        (navStep true true ⟨2, none, 2, 0⟩ 8 [] r3).1 = ⟨3, none, 3, 0⟩ ∧
        escapeFires true true ⟨3, none, 3, 0⟩ 8 [] r4 = false ∧
        (navStep true true ⟨3, none, 3, 0⟩ 8 [] r4).1 = ⟨4, none, 4, 0⟩ ∧
        escapeFires true true ⟨4, none, 4, 0⟩ 8 [] r5 = true ∧
        (navStep true true ⟨4, none, 4, 0⟩ 8 [] r5).1.consecutive_obstacles = 0) := by
  refine ⟨?_, ?_, ?_, ?_⟩
  · intro pca cam s d dets r h
    have hp := of_decide_eq_true h
    unfold navStep
    rw [if_pos hp]
    exact ⟨rfl, rfl⟩
  · intro pca cam s d dets r h
    have hp := of_decide_eq_false h
    unfold navStep
    rw [if_neg hp]
  · intro r
    have hlt := r.esc_extra.isLt
    exact ⟨by omega, by omega, rfl⟩
  · intro r1 r2 r3 r4 r5
    refine ⟨?_, ?_, ?_, ?_, ?_, ?_, ?_, ?_, ?_, ?_⟩ <;>
      norm_num [escapeFires, navStep, navTier, check_critical_objects,
        critical_distance, safe_distance, OBSTACLE_THRESHOLD,
        stuck_threshold, initLoop]

/-- Witness for C2: the 5th critical iteration from the scenario,
with a concrete oracle, applied to `escape_fires_once`. -/
theorem escape_fires_once_witness :
    escapeFires true true ⟨4, none, 4, 0⟩ 8 [] noRandom = true ∧
    (navStep true true ⟨4, none, 4, 0⟩ 8 [] noRandom).1.consecutive_obstacles = 0 ∧
    (navStep true true ⟨4, none, 4, 0⟩ 8 [] noRandom).2 =
      (navTier true true ⟨4, none, 4, 0⟩ 8 [] noRandom).2 ++
        escape_maneuver true noRandom := by
  have h : escapeFires true true ⟨4, none, 4, 0⟩ 8 [] noRandom = true := by decide
  exact ⟨h, (escape_fires_once.1 true true ⟨4, none, 4, 0⟩ 8 [] noRandom h).1,
    (escape_fires_once.1 true true ⟨4, none, 4, 0⟩ 8 [] noRandom h).2⟩

/-- Claim C3: the vision check is true exactly when some detection is in
the allowlist with confidence above 0.7 and center inside the central
60% band, and whenever it is true the iteration takes the critical-tier
response (back up, then turn; both counters incremented) even at a
distance in the SAFE range. -/
theorem vision_override (dets : List Detection) :
    (check_critical_objects true dets = true ↔
      ∃ det ∈ dets, det.cls ∈ critical_classes ∧
        (7 / 10 : ℚ) < det.confidence ∧
        |det.center_x - frame_center| < frame_center * (3 / 5))
  ∧ (∀ (pca : Bool) (s : LoopState) (distance : ℚ) (r : Rand),
      0 ≤ distance → check_critical_objects true dets = true →
      (navTier pca true s distance dets r).1.obstacle_count =
        s.obstacle_count + 1 ∧
      (navTier pca true s distance dets r).1.consecutive_obstacles =
        s.consecutive_obstacles + 1 ∧
      (navTier pca true s distance dets r).2 =
        (handle_critical_obstacle pca s.consecutive_obstacles
          s.last_turn_direction r).2) := by
  constructor
  · simp [check_critical_objects, List.any_eq_true, and_assoc]
  · intro pca s distance r h0 hc
    unfold navTier
    rw [if_neg (by linarith : ¬ distance < 0), if_pos (Or.inr hc)]
    exact ⟨rfl, rfl, rfl⟩

/-- Witness for C3: a centered person detection at confidence 0.9 forces
the critical tier at the SAFE distance 100, via `vision_override`. -/
theorem vision_override_witness :
    ((0 : ℚ) ≤ 100 ∧
      check_critical_objects true [⟨"person", 9 / 10, 320⟩] = true) ∧
    (navTier true true initLoop 100 [⟨"person", 9 / 10, 320⟩] noRandom).1.obstacle_count =
      initLoop.obstacle_count + 1 := by
  have hc : check_critical_objects true [⟨"person", 9 / 10, 320⟩] = true := by
    norm_num [check_critical_objects, critical_classes, frame_center,
      CAMERA_RESOLUTION_W, List.any_cons, List.any_nil]
  exact ⟨⟨by norm_num, hc⟩,
    ((vision_override [⟨"person", 9 / 10, 320⟩]).2 true initLoop 100 noRandom
      (by norm_num) hc).1⟩

/-! ### Theorems: leg kinematics -/

theorem atan2_le_pi (y x : ℝ) : atan2 y x ≤ Real.pi := Complex.arg_le_pi _

theorem neg_pi_lt_atan2 (y x : ℝ) : -Real.pi < atan2 y x := Complex.neg_pi_lt_arg _

theorem degrees_nonneg {r : ℝ} (h : 0 ≤ r) : 0 ≤ degrees r := by
  unfold degrees
  exact div_nonneg (mul_nonneg h (by norm_num)) Real.pi_pos.le

theorem degrees_le_mul {r c : ℝ} (h : r ≤ c * Real.pi) : degrees r ≤ c * 180 := by
  unfold degrees
  rw [div_le_iff Real.pi_pos]
  nlinarith [Real.pi_pos]

theorem mul_lt_degrees {r c : ℝ} (h : c * Real.pi < r) : c * 180 < degrees r := by
  unfold degrees
  rw [lt_div_iff Real.pi_pos]
  nlinarith [Real.pi_pos]

/-- Claim C5: the IK solver is total on all real inputs — unreachable
targets included — and always returns three bounded (hence finite)
angle values in degrees: alpha lies in (-180, 360], beta in [0, 180]
and gamma in (-180, 180].  Both acos arguments are clamped to [-1, 1]
before `acos`, and the `v = z = 0` zero-division is absorbed by the
solver's exception fallback `(90, 90, 90)`; no input escapes with an
error or an undefined value. -/
theorem solve_total_bounded (x y z : ℝ) :
    (-180 < (cartesian_to_polar x y z).1 ∧ (cartesian_to_polar x y z).1 ≤ 360) ∧
    (0 ≤ (cartesian_to_polar x y z).2.1 ∧ (cartesian_to_polar x y z).2.1 ≤ 180) ∧
    (-180 < (cartesian_to_polar x y z).2.2 ∧
      (cartesian_to_polar x y z).2.2 ≤ 180) := by
  unfold cartesian_to_polar
  split_ifs with h
  · norm_num
  · refine ⟨⟨?_, ?_⟩, ⟨?_, ?_⟩, ?_, ?_⟩
    · show -180 < degrees (alphaOf (vOf x y) z)
      have h1 : (-1 : ℝ) * Real.pi < alphaOf (vOf x y) z := by
        have ha := neg_pi_lt_atan2 z (vOf x y)
        have hb := Real.arccos_nonneg (acos_term_alpha (vOf x y) z)
        unfold alphaOf
        linarith
      have := mul_lt_degrees h1
      linarith
    · show degrees (alphaOf (vOf x y) z) ≤ 360
      have h1 : alphaOf (vOf x y) z ≤ (2 : ℝ) * Real.pi := by
        have ha := atan2_le_pi z (vOf x y)
        have hb := Real.arccos_le_pi (acos_term_alpha (vOf x y) z)
        unfold alphaOf
        linarith
      have := degrees_le_mul h1
      linarith
    · show 0 ≤ degrees (Real.arccos (beta_term (vOf x y) z))
      exact degrees_nonneg (Real.arccos_nonneg _)
    · show degrees (Real.arccos (beta_term (vOf x y) z)) ≤ 180
      have h1 : Real.arccos (beta_term (vOf x y) z) ≤ (1 : ℝ) * Real.pi := by
        have := Real.arccos_le_pi (beta_term (vOf x y) z)
        linarith
      have := degrees_le_mul h1
      linarith
    · show -180 < degrees (gammaOf x y)
      have h1 : (-1 : ℝ) * Real.pi < gammaOf x y := by
        unfold gammaOf
        split_ifs
        · have := neg_pi_lt_atan2 y x
          linarith
        · have := neg_pi_lt_atan2 (-y) (-x)
          linarith
      have := mul_lt_degrees h1
      linarith
    · show degrees (gammaOf x y) ≤ 180
      have h1 : gammaOf x y ≤ (1 : ℝ) * Real.pi := by
        unfold gammaOf
        split_ifs
        · have := atan2_le_pi y x
          linarith
        · have := atan2_le_pi (-y) (-x)
          linarith
      have := degrees_le_mul h1
      linarith

/-- Claim C6: for every reachable target in the annulus
`|a - b| <= sqrt(v^2 + z^2) <= a + b`, solving then applying the
per-leg mirror transform then inverting that transform reproduces the
solver's `(alpha, beta, gamma)` exactly (the two mirror transforms are
affine bijections, so the round trip is exact, with no numerical
tolerance needed). -/
theorem ik_mirror_roundtrip (x y z : ℝ) (leg : Fin 4)
    (h1 : |LENGTH_A - LENGTH_B| ≤ Real.sqrt ((vOf x y) ^ 2 + z ^ 2))
    (h2 : Real.sqrt ((vOf x y) ^ 2 + z ^ 2) ≤ LENGTH_A + LENGTH_B) :
    servo_map_inv leg (polar_to_servo_map leg (cartesian_to_polar x y z)) =
      cartesian_to_polar x y z := by
  generalize cartesian_to_polar x y z = p
  obtain ⟨a, bc⟩ := p
  obtain ⟨b, g⟩ := bc
  fin_cases leg <;>
    simp [polar_to_servo_map, servo_map_inv, Prod.ext_iff] <;>
    ring_nf <;>
    norm_num

/-- Witness for C6: the reachable target (87.5, 0, 80) for leg 0, whose
`sqrt(v^2 + z^2) = 100` lies inside the annulus [22.5, 132.5]. -/
theorem ik_mirror_roundtrip_witness :
    (|LENGTH_A - LENGTH_B| ≤ Real.sqrt ((vOf 87.5 0) ^ 2 + 80 ^ 2) ∧
     Real.sqrt ((vOf 87.5 0) ^ 2 + 80 ^ 2) ≤ LENGTH_A + LENGTH_B) ∧
    servo_map_inv 0 (polar_to_servo_map 0 (cartesian_to_polar 87.5 0 80)) =
      cartesian_to_polar 87.5 0 80 := by
  have hv : vOf (87.5 : ℝ) 0 = 60 := by
    unfold vOf wOf LENGTH_C
    rw [if_pos (by norm_num : (0 : ℝ) ≤ 87.5),
      show (87.5 : ℝ) ^ 2 + 0 ^ 2 = 87.5 ^ 2 by ring,
      Real.sqrt_sq (by norm_num : (0 : ℝ) ≤ 87.5)]
    norm_num
  have hs : Real.sqrt ((vOf (87.5 : ℝ) 0) ^ 2 + 80 ^ 2) = 100 := by
    rw [hv, show (60 : ℝ) ^ 2 + 80 ^ 2 = 100 ^ 2 by norm_num,
      Real.sqrt_sq (by norm_num : (0 : ℝ) ≤ 100)]
  have h1 : |LENGTH_A - LENGTH_B| ≤ Real.sqrt ((vOf (87.5 : ℝ) 0) ^ 2 + 80 ^ 2) := by
    rw [hs]
    unfold LENGTH_A LENGTH_B
    rw [show (55 : ℝ) - 77.5 = -22.5 by norm_num,
      abs_of_neg (by norm_num : (-22.5 : ℝ) < 0)]
    norm_num
  have h2 : Real.sqrt ((vOf (87.5 : ℝ) 0) ^ 2 + 80 ^ 2) ≤ LENGTH_A + LENGTH_B := by
    rw [hs]
    unfold LENGTH_A LENGTH_B
    norm_num
  exact ⟨⟨h1, h2⟩, ik_mirror_roundtrip 87.5 0 80 0 h1 h2⟩

/-! ### Theorems: gait sequencer pose invariant -/

theorem preserves_aseq {f g : Act} (hf : preserves f) (hg : preserves g) :
    preserves (aseq f g) := fun s hs => hg _ (hf _ hs)

theorem preserves_aseqs {l : List Act} (h : ∀ f ∈ l, preserves f) :
    preserves (aseqs l) := by
  induction l with
  | nil => exact fun s hs => hs
  | cons f fs ih =>
    exact preserves_aseq (h f (by simp)) (ih fun g hg => h g (by simp [hg]))

theorem preserves_emit (es : List SEvent) : preserves (emit es) :=
  fun _ hs => hs

theorem preserves_setSpeed (v : ℚ) : preserves (setSpeed v) :=
  fun _ hs => hs

theorem preserves_set_site (leg : Fin 4) (x y z : ℚ) :
    preserves (actSetSite leg x y z) := by
  intro s hs l
  by_cases hl : l = leg
  · subst hl
    simp [actSetSite, set_site]
  · simp [actSetSite, set_site, Function.update_noteq hl]
    exact hs l

theorem preserves_pair_1 : preserves step_forward_pair_1 := by
  unfold step_forward_pair_1
  refine preserves_aseqs ?_
  intro f hf
  fin_cases hf <;>
    first
      | exact preserves_set_site _ _ _ _
      | exact preserves_emit _
      | exact preserves_setSpeed _

theorem preserves_pair_2 : preserves step_forward_pair_2 := by
  unfold step_forward_pair_2
  refine preserves_aseqs ?_
  intro f hf
  fin_cases hf <;>
    first
      | exact preserves_set_site _ _ _ _
      | exact preserves_emit _
      | exact preserves_setSpeed _

theorem preserves_loop (n : ℕ) : preserves (step_forward_loop n) := by
  induction n with
  | zero => exact fun s hs => hs
  | succ n ih =>
    refine preserves_aseq ?_ ih
    intro s hs
    show siteInv ((if (s.site_now 2).2.1 = Y_START then step_forward_pair_1 s
      else step_forward_pair_2 s)).1
    by_cases hb : (s.site_now 2).2.1 = Y_START
    · rw [if_pos hb]
      exact preserves_pair_1 s hs
    · rw [if_neg hb]
      exact preserves_pair_2 s hs

theorem preserves_stand : preserves stand := by
  intro s hs
  unfold stand
  split_ifs
  · exact hs
  · refine preserves_aseqs ?_ s hs
    intro f hf
    fin_cases hf <;>
      first
        | exact preserves_setSpeed _
        | exact preserves_set_site _ _ _ _
        | exact preserves_emit _

theorem preserves_sit : preserves sit := by
  intro s hs
  unfold sit
  split_ifs
  · exact hs
  · refine preserves_aseqs ?_ s hs
    intro f hf
    fin_cases hf <;>
      first
        | exact preserves_setSpeed _
        | exact preserves_set_site _ _ _ _
        | exact preserves_emit _

theorem preserves_step_forward (n : ℕ) : preserves (step_forward n) := by
  intro s hs
  unfold step_forward
  split_ifs
  · exact hs
  · exact preserves_aseq (preserves_setSpeed _) (preserves_loop n) s hs

/-- Claim C9: the controller never holds a commanded target differing
from its assumed-reached position — `site_now = site_expect` for every
leg after initialisation and after every `set_site`, hence after every
gait command built from `set_site` (`stand`, `sit`, `step_forward`). -/
theorem site_now_eq_expect :
    siteInv init_state
  ∧ (∀ (s : SpiderState) (leg : Fin 4) (x y z : ℚ),
      siteInv s → siteInv (set_site s leg x y z).1)
  ∧ (∀ s : SpiderState, siteInv s → siteInv (stand s).1)
  ∧ (∀ s : SpiderState, siteInv s → siteInv (sit s).1)
  ∧ (∀ (s : SpiderState) (n : ℕ), siteInv s → siteInv (step_forward n s).1) := by
  refine ⟨fun _ => rfl, ?_, ?_, ?_, ?_⟩
  · exact fun s leg x y z hs => preserves_set_site leg x y z s hs
  · exact fun s hs => preserves_stand s hs
  · exact fun s hs => preserves_sit s hs
  · exact fun s n hs => preserves_step_forward n s hs

/-- Witness for C9: `site_now_eq_expect` applied at the freshly
initialised state and a concrete `set_site` call there. -/
theorem site_now_eq_expect_witness :
    siteInv init_state ∧ siteInv (set_site init_state 0 1 2 3).1 :=
  ⟨fun _ => rfl, site_now_eq_expect.2.1 init_state 0 1 2 3 (fun _ => rfl)⟩

/-- Claim C10: `step_back`, `turn_left` and `turn_right` leave every
leg's `site_now` and `site_expect` unchanged and issue no servo
command; with hardware attached they emit exactly one blocking sleep
per step (0.3 s for `step_back`, 0.4 s per turn step), and without
hardware nothing at all. -/
theorem back_and_turn_preserve_pose (s : SpiderState) (steps : ℕ) :
    ((step_back steps s).1.site_now = s.site_now ∧
     (step_back steps s).1.site_expect = s.site_expect ∧
     (step_back steps s).2 =
       (if s.pca then List.replicate steps (SEvent.sleep (3 / 10)) else []) ∧
     (step_back steps s).2.all isSleep = true)
  ∧ ((turn_left steps s).1.site_now = s.site_now ∧
     (turn_left steps s).1.site_expect = s.site_expect ∧
     (turn_left steps s).2 =
       (if s.pca then List.replicate steps (SEvent.sleep (2 / 5)) else []) ∧
     (turn_left steps s).2.all isSleep = true)
  ∧ ((turn_right steps s).1.site_now = s.site_now ∧
     (turn_right steps s).1.site_expect = s.site_expect ∧
     (turn_right steps s).2 =
       (if s.pca then List.replicate steps (SEvent.sleep (2 / 5)) else []) ∧
     (turn_right steps s).2.all isSleep = true) := by
  unfold step_back turn_left turn_right
  rcases Bool.eq_false_or_eq_true s.pca with h | h <;>
    simp [h, isSleep, List.all_eq_true, List.mem_replicate]

end CyberCrawl
